import Mathlib

/-!
# Verification of the AmriTravel plugin/hook dispatch system

A shallow embedding, in Lean 4, of the plugin manager (`PluginManager` in
`plugin-manager.js`) and of the lead/booking HTTP entry points
(`api/onLead.js`, `api/onBooking.js`), together with theorems settling the
specification's claims about them.

Modelling conventions:
* JavaScript primitive values are `JsPrim`; handler arguments and return
  values are `JsVal`, which additionally contains plain objects and promise
  objects (a promise object is identified by how it eventually settles).
* A JavaScript function that may `throw` is embedded as a function into
  `Except String _`, the `.error` case being a thrown exception whose
  `message` is the carried string.
* JavaScript objects used as string-keyed records are embedded as
  association lists in key-insertion order, which is the enumeration order
  of `Object.keys`; property assignment overwrites in place or appends.
* `console.error` / `console.log` output is modelled only where a claim
  refers to it: `trigger` returns the list of error messages it reports
  alongside its result array.
* Callback invocations performed by the manager (`init`, `cleanup`,
  `updateConfig`) are recorded in the operation's returned effect trace, so
  that "the callback was invoked with such-and-such argument" is a statement
  about the returned value.
-/

/-- A JavaScript primitive value (the fragment the embedded code handles). -/
inductive JsPrim where
  | str (s : String)
  | num (n : Int)
  | jsBool (b : Bool)
  | jsNull
deriving DecidableEq, Repr

/-- JavaScript truthiness of a possibly-absent primitive value:
`undefined`, `null`, the empty string, `0` and `false` are falsy. -/
def jsTruthy : Option JsPrim → Bool
  | none => false
  | some (.str s) => s ≠ ""
  | some (.num n) => n ≠ 0
  | some (.jsBool b) => b
  | some .jsNull => false

/-- A JavaScript object with primitive-valued properties, as an association
list in key-insertion order. -/
abbrev JsObj : Type := List (String × JsPrim)

/-- Property read `o[k]`: first binding wins (keys are unique in objects
built by the embedded code). -/
def objGet (o : JsObj) (k : String) : Option JsPrim :=
  match o.find? (fun kv => kv.1 = k) with
  | some kv => some kv.2
  | none => none

/-- Property assignment `o[k] = v`: an existing key keeps its position and
gets the new value, a new key is appended (JavaScript key order). -/
def objSet (o : JsObj) (k : String) (v : JsPrim) : JsObj :=
  match o with
  | [] => [(k, v)]
  | kv :: rest => if kv.1 = k then (k, v) :: rest else kv :: objSet rest k v

/-- Object spread `{...old, ...new}`: keys of `old` keep their order, values
overridden by `new` where present; keys only in `new` are appended in
`new`'s order. -/
def spreadMerge (old new : JsObj) : JsObj :=
  (old.map (fun kv =>
    match objGet new kv.1 with
    | some v => (kv.1, v)
    | none => kv))
  ++ new.filter (fun kv => (objGet old kv.1).isNone)

/-- How a promise object eventually settles: fulfilled with a value or
rejected with an error message. -/
inductive PromiseSettled where
  | fulfilled (v : JsPrim)
  | rejected (msg : String)
deriving DecidableEq, Repr

/-- A JavaScript value as seen by hook handlers: a primitive, a plain
object, or a promise object.  A promise object is identified by its
eventual settlement; holding a `JsVal.promise` means holding the
still-unsettled promise object itself. -/
inductive JsVal where
  | prim (p : JsPrim)
  | obj (fields : JsObj)
  | promise (settled : PromiseSettled)
deriving DecidableEq, Repr

/-- The result of calling a hook handler: a normal return (whose value may
be a promise object) or a synchronous throw. -/
inductive HandlerRun where
  | ret (v : JsVal)
  | throw (msg : String)

/-- A hook handler: a function from the trigger payload to its run. -/
def Handler : Type := JsVal → HandlerRun

/-- The fixed hook enumeration of `PluginManager`'s constructor. -/
inductive HookName where
  | onBooking | onLead | onPayment | onMessage | onAdTrack | onTaskCreate | onVehicleUpdate
deriving DecidableEq, Repr

/-- The string key of a hook in the `this.hooks` object literal. -/
def hookKey : HookName → String
  | .onBooking => "onBooking"
  | .onLead => "onLead"
  | .onPayment => "onPayment"
  | .onMessage => "onMessage"
  | .onAdTrack => "onAdTrack"
  | .onTaskCreate => "onTaskCreate"
  | .onVehicleUpdate => "onVehicleUpdate"

/-- Resolution of a hook name against the seven OWN keys of the
`this.hooks` object literal (the constructor's fixed key set, which no
code ever extends).  This is only the own-property part of the bracket
lookup `this.hooks[hookName]`: inherited `Object.prototype` members
(`toString`, `constructor`, `valueOf`, ...) are found via the prototype
chain and are handled by `hooksGet` below. -/
def parseHook (s : String) : Option HookName :=
  if s = "onBooking" then some .onBooking
  else if s = "onLead" then some .onLead
  else if s = "onPayment" then some .onPayment
  else if s = "onMessage" then some .onMessage
  else if s = "onAdTrack" then some .onAdTrack
  else if s = "onTaskCreate" then some .onTaskCreate
  else if s = "onVehicleUpdate" then some .onVehicleUpdate
  else none

/-- One entry of `this.hooks[hookName]`: `{name, callback}`. -/
structure Subscription where
  name : String
  callback : Handler

/-- One entry of a trigger's `results` array: `{plugin, result}` on normal
return, `{plugin, error}` when the handler threw synchronously. -/
inductive HookEntry where
  | success (plugin : String) (result : JsVal)
  | failure (plugin : String) (error : String)
deriving DecidableEq, Repr

/-- The `plugin` field of a results entry. -/
def HookEntry.plugin : HookEntry → String
  | .success p _ => p
  | .failure p _ => p

/-- A plugin implementation object: optional `init`/`cleanup`/`updateConfig`
callbacks and a `hooks` object mapping hook-name keys to handlers (in key
order).  `init` and `cleanup` may throw; `updateConfig` is modelled as
effect-free since no claim concerns its failure. -/
structure PluginImpl where
  init : Option (JsObj → Except String Unit)
  hooks : List (String × Handler)
  cleanup : Option (Unit → Except String Unit)
  updateConfig : Option (JsObj → Unit)

/-- The registry record `this.plugins[name] = {instance, config, active}`. -/
structure PluginRecord where
  inst : PluginImpl
  config : JsObj
  active : Bool

/-- The state of a `PluginManager` instance. -/
structure PMState where
  plugins : List (String × PluginRecord)
  activePlugins : List String
  hooks : HookName → List Subscription

/-- The fresh state built by the constructor. -/
def PMState.initial : PMState :=
  { plugins := [], activePlugins := [], hooks := fun _ => [] }

/-- Registry lookup of the record stored under a plugin name. -/
def lookupPlugin (st : PMState) (name : String) : Option PluginRecord :=
  match st.plugins.find? (fun kv => kv.1 = name) with
  | some kv => some kv.2
  | none => none

/-- Update the record stored under `name` (key keeps its position). -/
def setPlugin (plugins : List (String × PluginRecord)) (name : String)
    (r : PluginRecord) : List (String × PluginRecord) :=
  plugins.map (fun kv => if kv.1 = name then (name, r) else kv)

/-- Append the subscriptions a plugin declares: for each key of
`plugin.instance.hooks` (in key order), if `this.hooks[hookName]` exists,
push `{name, callback}` onto it. -/
def addSubscriptions (hooks : HookName → List Subscription) (name : String) :
    List (String × Handler) → (HookName → List Subscription)
  | [] => hooks
  | (hn, cb) :: rest =>
    match parseHook hn with
    | some h =>
        addSubscriptions
          (fun h' => if h' = h then hooks h' ++ [⟨name, cb⟩] else hooks h') name rest
    | none => addSubscriptions hooks name rest

/-- The outcome of an `activate(name)` call: the manager state after the
call (including partial mutations before a throw), the returned value or
the propagated exception, and the config `init` was invoked with (if it
was invoked). -/
structure ActivateResult where
  state : PMState
  ret : Except String Bool
  initCalledWith : Option JsObj

/-- Embeds activate(name): unregistered → log error, return false.  Otherwise
run `init(config)` if present (NOT guarded: a throw propagates before any
mutation), then append the plugin's subscriptions to each declared hook,
mark it active and append its name to `activePlugins`. -/
def activate (st : PMState) (name : String) : ActivateResult :=
  match lookupPlugin st name with
  | none => { state := st, ret := .ok false, initCalledWith := none }
  | some plugin =>
    let initRun : Except String Unit :=
      match plugin.inst.init with
      | some f => f plugin.config
      | none => .ok ()
    let initArg : Option JsObj :=
      match plugin.inst.init with
      | some _ => some plugin.config
      | none => none
    match initRun with
    | .error m => { state := st, ret := .error m, initCalledWith := initArg }
    | .ok () =>
      let hooks' := addSubscriptions st.hooks name plugin.inst.hooks
      let plugins' := setPlugin st.plugins name { plugin with active := true }
      { state := { plugins := plugins',
                   activePlugins := st.activePlugins ++ [name],
                   hooks := hooks' },
        ret := .ok true,
        initCalledWith := initArg }

/-- The outcome of a `deactivate(name)` call: the state after the call
(subscription removal happens before `cleanup`, so it survives a cleanup
throw), the returned value or propagated exception, and whether `cleanup`
was invoked. -/
structure DeactivateResult where
  state : PMState
  ret : Except String Bool
  cleanupCalled : Bool

/-- Embeds deactivate(name): not registered or not active → log error, return
false.  Otherwise filter this plugin's subscriptions out of every hook's
list, then call `cleanup()` if present (NOT guarded: a throw propagates,
leaving the plugin still marked active), then mark inactive and remove
from `activePlugins`. -/
def deactivate (st : PMState) (name : String) : DeactivateResult :=
  match lookupPlugin st name with
  | none => { state := st, ret := .ok false, cleanupCalled := false }
  | some plugin =>
    if plugin.active = false then
      { state := st, ret := .ok false, cleanupCalled := false }
    else
      let hooks' : HookName → List Subscription :=
        fun h => (st.hooks h).filter (fun sub => sub.name ≠ name)
      let st1 : PMState := { st with hooks := hooks' }
      let cleanupRun : Except String Unit :=
        match plugin.inst.cleanup with
        | some f => f ()
        | none => .ok ()
      match cleanupRun with
      | .error m =>
          { state := st1, ret := .error m,
            cleanupCalled := plugin.inst.cleanup.isSome }
      | .ok () =>
          { state := { plugins := setPlugin st1.plugins name { plugin with active := false },
                       activePlugins := st1.activePlugins.filter (fun n => n ≠ name),
                       hooks := hooks' },
            ret := .ok true,
            cleanupCalled := plugin.inst.cleanup.isSome }

/-- The `console.error` message `trigger` logs when a handler throws. -/
def triggerErrMsg (hookName pluginName msg : String) : String :=
  "Error in plugin " ++ pluginName ++ " for hook " ++ hookName ++ ": " ++ msg

/-- The entry the trigger loop records for one subscription: the returned
value (a promise object is recorded as-is, unsettled) or the synchronously
thrown message. -/
def subEntry (sub : Subscription) (data : JsVal) : HookEntry :=
  match sub.callback data with
  | .ret v => .success sub.name v
  | .throw m => .failure sub.name m

/-- The body of `trigger`'s `for (const hook of this.hooks[hookName])`
loop: returns the `console.error` messages and the `results` array, in
subscription order. -/
def runHooks (hookName : String) (data : JsVal) :
    List Subscription → List String × List HookEntry
  | [] => ([], [])
  | sub :: rest =>
    let tail := runHooks hookName data rest
    match sub.callback data with
    | .ret v => (tail.1, .success sub.name v :: tail.2)
    | .throw m =>
        (triggerErrMsg hookName sub.name m :: tail.1,
         .failure sub.name m :: tail.2)

/-- Embeds trigger(hookName, data) restricted to own-key lookup: a hook
name resolving to one of the seven own subscription arrays runs every
subscription in order, catching synchronous throws per entry; any other
name behaves as `undefined` (log the unknown-hook error, return `[]`).
First component: the `console.error` messages reported; second: the
returned `results` array.  Exact for the seven hook keys and for unknown
names that are not inherited `Object.prototype` members; the full bracket
lookup, prototype chain included, is `triggerJs` below, which agrees with
`.ok` of this function on the seven hook keys (`triggerJs_hookKey`). -/
def trigger (st : PMState) (hookName : String) (data : JsVal) :
    List String × List HookEntry :=
  match parseHook hookName with
  | none => (["Hook " ++ hookName ++ " does not exist."], [])
  | some h => runHooks hookName data (st.hooks h)

/-- The own property names of `Object.prototype` (V8/Node).  Reading any
of these through `this.hooks[hookName]` finds an inherited member via the
prototype chain — a function, or the prototype object itself for
`__proto__` — which is truthy and not iterable. -/
def protoKeys : List String :=
  ["constructor", "hasOwnProperty", "isPrototypeOf", "propertyIsEnumerable",
   "toString", "toLocaleString", "valueOf", "__proto__", "__defineGetter__",
   "__defineSetter__", "__lookupGetter__", "__lookupSetter__"]

/-- What the bracket lookup `this.hooks[hookName]` yields under full
JavaScript semantics: an own key yields that hook's subscription array;
the name of an inherited `Object.prototype` member yields that member
(truthy, not iterable); anything else yields `undefined`. -/
inductive HooksMember where
  | ownArray (h : HookName)
  | inherited
  | undefinedProp

/-- Embeds the lookup `this.hooks[hookName]`, prototype chain included. -/
def hooksGet (s : String) : HooksMember :=
  match parseHook s with
  | some h => .ownArray h
  | none => if s ∈ protoKeys then .inherited else .undefinedProp

/-- The `TypeError` thrown by `for (const hook of x)` when `x` is not
iterable. -/
def typeErrorMsg (s : String) : String :=
  "TypeError: this.hooks[" ++ s ++ "] is not iterable"

/-- Embeds trigger(hookName, data) with the full bracket-lookup
semantics.  The guard `!this.hooks[hookName]` fires only for `undefined`
(log the unknown-hook error, return `[]`); an own subscription array is
iterated by the loop (`runHooks`); a truthy inherited `Object.prototype`
member passes the guard and the `for`-`of` over a non-iterable throws a
`TypeError`, which propagates to the caller (the `.error` case). -/
def triggerJs (st : PMState) (hookName : String) (data : JsVal) :
    Except String (List String × List HookEntry) :=
  match hooksGet hookName with
  | .ownArray h => .ok (runHooks hookName data (st.hooks h))
  | .inherited => .error (typeErrorMsg hookName)
  | .undefinedProp => .ok (["Hook " ++ hookName ++ " does not exist."], [])

/-- Embeds getRegisteredPlugins(). -/
def getRegisteredPlugins (st : PMState) : List String :=
  st.plugins.map Prod.fst

/-- The outcome of `updatePluginConfig`: the new state, the returned value,
and the config `instance.updateConfig` was invoked with (if invoked). -/
structure UpdateConfigResult where
  state : PMState
  ret : Bool
  updateConfigCalledWith : Option JsObj

/-- Embeds updatePluginConfig(name, config): unregistered → log error, return
false.  Otherwise spread-merge the partial config into the stored config;
if the plugin is active and exposes an `updateConfig` function, invoke it
with the merged config.  Returns true. -/
def updatePluginConfig (st : PMState) (name : String) (config : JsObj) :
    UpdateConfigResult :=
  match lookupPlugin st name with
  | none => { state := st, ret := false, updateConfigCalledWith := none }
  | some plugin =>
    let merged := spreadMerge plugin.config config
    let st' : PMState :=
      { st with plugins := setPlugin st.plugins name { plugin with config := merged } }
    let called : Option JsObj :=
      if plugin.active ∧ plugin.inst.updateConfig.isSome then some merged else none
    { state := st', ret := true, updateConfigCalledWith := called }

/-!
## Event entry points (`api/onLead.js`, booking handler in `api/onBooking.js`)

The HTTP handlers are embedded as functions of: the persistence
collaborator `db` (Supabase `insert(...).select()`, modelled as the record
inserted ↦ either the saved row or an error), the current timestamp string
(`new Date().toISOString()`), the request method and JSON body, and — for
bookings — the clock and random draw feeding the reference generator.

The handler's observable outcome is its HTTP status, the record it handed
to `insert` (if it attempted persistence), and the list of
`pluginManager.trigger(hook, record)` calls it made.  The per-vendor
helper calls inside `triggerIntegrations` (WhatsApp, CRM, email, ad
tracking, vehicle availability) are external collaborators: each is
wrapped in its own `try/catch` and `triggerIntegrations` is itself wrapped
in `try/catch`, so none of them can alter the status, the persisted
record, or the hook dispatch, and they are not modelled further.
-/

/-- The observable outcome of one lead/booking HTTP request. -/
structure ApiOutcome where
  status : Nat
  insertAttempt : Option JsObj
  hooksFired : List (String × JsObj)
deriving DecidableEq, Repr

/-- Embeds validateLeadData: every required field (`name`, `email`) is truthy. -/
def validateLeadData (leadData : JsObj) : Bool :=
  ["name", "email"].all (fun field => jsTruthy (objGet leadData field))

/-- The record `processLead` hands to `insert`: the body with `created_at`
stamped and, when `source` is falsy, `source = "website"` defaulted. -/
def preparedLead (ts : String) (leadData : JsObj) : JsObj :=
  if jsTruthy (objGet (objSet leadData "created_at" (.str ts)) "source") then
    objSet leadData "created_at" (.str ts)
  else
    objSet (objSet leadData "created_at" (.str ts)) "source" (.str "website")

/-- The lead endpoint (`module.exports` of `api/onLead.js`): 405 on
non-POST; 400 when validation fails (no insert, no hooks); otherwise
`processLead`: stamp and default the record, insert it — on insert error
`processLead` throws, caught by the outer handler as a 500, with no hook
fired — and on success fire `trigger("onLead", savedLead)` and return
200. -/
def onLeadHandler (db : JsObj → Except String JsObj) (ts : String)
    (method : String) (body : JsObj) : ApiOutcome :=
  if method ≠ "POST" then
    { status := 405, insertAttempt := none, hooksFired := [] }
  else if validateLeadData body = false then
    { status := 400, insertAttempt := none, hooksFired := [] }
  else
    let record := preparedLead ts body
    match db record with
    | .error _ =>
        { status := 500, insertAttempt := some record, hooksFired := [] }
    | .ok savedLead =>
        { status := 200, insertAttempt := some record,
          hooksFired := [("onLead", savedLead)] }

/-- Embeds validateBookingData: every required booking field is truthy. -/
def validateBookingData (bookingData : JsObj) : Bool :=
  ["vehicleId", "pickupDate", "returnDate", "pickupLocation",
   "returnLocation", "first-name", "last-name", "email", "phone"].all
    (fun field => jsTruthy (objGet bookingData field))

/-- Embeds String.prototype.padStart with width 4 and a zero pad. -/
def padStart4 (s : String) : String :=
  if s.length ≥ 4 then s else String.mk (List.replicate (4 - s.length) '0') ++ s

/-- Embeds generateBookingReference: fixed prefix `AT-`, the last six digits of
`Date.now()`, and a zero-padded random draw below 10000. -/
def generateBookingReference (now : Nat) (rand : Fin 10000) : String :=
  let timestamp := (toString now).drop ((toString now).length - 6)
  "AT-" ++ timestamp ++ padStart4 (toString rand.val)

/-- The record `processBooking` hands to `insert`: the body with a
generated `reference` when the provided one is falsy, and `created_at`
stamped. -/
def preparedBooking (now : Nat) (rand : Fin 10000) (ts : String)
    (bookingData : JsObj) : JsObj :=
  objSet
    (if jsTruthy (objGet bookingData "reference") then bookingData
     else objSet bookingData "reference" (.str (generateBookingReference now rand)))
    "created_at" (.str ts)

/-- The booking endpoint (`module.exports` of `api/onBooking.js`): 405 on
non-POST; 400 when validation fails (no insert, no hooks); otherwise
`processBooking`: generate a reference if absent, stamp `created_at`,
insert — on insert error `processBooking` throws, caught by the outer
handler as a 500, with no hook fired — and on success fire
`trigger("onBooking", savedBooking)` and return 200. -/
def onBookingHandler (db : JsObj → Except String JsObj) (now : Nat)
    (rand : Fin 10000) (ts : String) (method : String) (body : JsObj) :
    ApiOutcome :=
  if method ≠ "POST" then
    { status := 405, insertAttempt := none, hooksFired := [] }
  else if validateBookingData body = false then
    { status := 400, insertAttempt := none, hooksFired := [] }
  else
    let record := preparedBooking now rand ts body
    match db record with
    | .error _ =>
        { status := 500, insertAttempt := some record, hooksFired := [] }
    | .ok savedBooking =>
        { status := 200, insertAttempt := some record,
          hooksFired := [("onBooking", savedBooking)] }

/-!
## Auxiliary definitions for the statements
-/

/-- Modelled from the spec: the entry an *awaiting* dispatcher (spec §4.1,
"the dispatcher must await/collect each result in order") would record for
one subscription — a returned promise is awaited, its fulfilment becomes
the entry's result and its rejection the entry's error.  Refinement
target to compare with the source-derived `subEntry`. -/
def specAwaitedEntry (sub : Subscription) (data : JsVal) : HookEntry :=
  match sub.callback data with
  | .ret (.promise (.fulfilled v)) => .success sub.name (.prim v)
  | .ret (.promise (.rejected m)) => .failure sub.name m
  | .ret v => .success sub.name v
  | .throw m => .failure sub.name m

/-!
## Concrete fixtures used by witnesses and counterexamples
-/

/-- A null payload. -/
def dNull : JsVal := .prim .jsNull

/-- C1 fixture: a succeeding subscription. -/
def w1A : Subscription := ⟨"alpha", fun _ => .ret (.prim (.num 1))⟩

/-- C1 fixture: a synchronously throwing subscription. -/
def w1B : Subscription := ⟨"beta", fun _ => .throw "boom"⟩

/-- C1 fixture: a manager whose `onLead` hook has the two subscriptions. -/
def w1St : PMState :=
  { plugins := [], activePlugins := [],
    hooks := fun h => if h = .onLead then [w1A, w1B] else [] }

/-- C3 fixture: an asynchronous handler whose returned promise rejects. -/
def c3Sub : Subscription := ⟨"asyncP", fun _ => .ret (.promise (.rejected "boom"))⟩

/-- C3 fixture: a manager whose `onLead` hook has that one subscription. -/
def c3St : PMState :=
  { plugins := [], activePlugins := [],
    hooks := fun h => if h = .onLead then [c3Sub] else [] }

/-- C4 fixture: the handler of plugin `p`. -/
def c4cb : Handler := fun _ => .ret (.prim (.str "p-ran"))

/-- C4 fixture: plugin `p`'s implementation object. -/
def c4Impl : PluginImpl :=
  { init := none, hooks := [("onLead", c4cb)], cleanup := none, updateConfig := none }

/-- C4 fixture: a manager where `p` is active and subscribed to `onLead`. -/
def c4St : PMState :=
  { plugins := [("p", { inst := c4Impl, config := [], active := true })],
    activePlugins := ["p"],
    hooks := fun h => if h = .onLead then [⟨"p", c4cb⟩] else [] }

/-- C6 fixture: an implementation whose `init` throws. -/
def c6InitImpl : PluginImpl :=
  { init := some (fun _ => .error "init-boom"), hooks := [("onLead", c4cb)],
    cleanup := none, updateConfig := none }

/-- C6 fixture: a manager with the init-throwing plugin registered. -/
def c6InitSt : PMState :=
  { plugins := [("q", { inst := c6InitImpl, config := [], active := false })],
    activePlugins := [], hooks := fun _ => [] }

/-- C6 fixture: an implementation whose `cleanup` throws. -/
def c6CleanImpl : PluginImpl :=
  { init := none, hooks := [("onLead", c4cb)],
    cleanup := some (fun _ => .error "cleanup-boom"), updateConfig := none }

/-- C6 fixture: a manager where the cleanup-throwing plugin is active. -/
def c6St : PMState :=
  { plugins := [("p", { inst := c6CleanImpl, config := [], active := true })],
    activePlugins := ["p"],
    hooks := fun h => if h = .onLead then [⟨"p", c4cb⟩] else [] }

/-- C7/C8 fixture: a persistence collaborator that always fails. -/
def dbFail : JsObj → Except String JsObj := fun _ => .error "db down"

/-- C7/C8 fixture: a persistence collaborator that returns the row with an
`id` assigned. -/
def dbOk : JsObj → Except String JsObj := fun r => .ok (objSet r "id" (.num 7))

/-- C8 fixture: a valid lead body (no `source` supplied). -/
def leadBody : JsObj := [("name", .str "Jane"), ("email", .str "jane@x.com")]

/-- C8 fixture: a lead body missing `email`. -/
def badLeadBody : JsObj := [("name", .str "Jane")]

/-- C7 fixture: a valid booking body. -/
def bookingBody : JsObj :=
  [("vehicleId", .str "v1"), ("pickupDate", .str "2026-10-20"),
   ("returnDate", .str "2026-10-22"), ("pickupLocation", .str "KUL"),
   ("returnLocation", .str "KUL"), ("first-name", .str "Jane"),
   ("last-name", .str "Doe"), ("email", .str "jane@x.com"),
   ("phone", .str "60123456789")]

/-- C9 fixture: an implementation exposing an `updateConfig` callback. -/
def waImpl : PluginImpl :=
  { init := none, hooks := [], cleanup := none, updateConfig := some (fun _ => ()) }

/-- C9 fixture: a manager where plugin `wa` is active with config
`{apiKey: "y", flowId: "z"}`. -/
def c9St : PMState :=
  { plugins := [("wa", { inst := waImpl,
                         config := [("apiKey", .str "y"), ("flowId", .str "z")],
                         active := true })],
    activePlugins := ["wa"], hooks := fun _ => [] }

/-- The seven constructor keys resolve to their hooks. -/
theorem parseHook_hookKey (h : HookName) : parseHook (hookKey h) = some h := by
  cases h <;> rfl

/-- On the seven own hook keys the full-lookup dispatcher agrees with the
own-key dispatcher: no inherited member shadows an own key, so `triggerJs`
returns exactly `trigger`'s log-and-results pair. -/
theorem triggerJs_hookKey (st : PMState) (h : HookName) (d : JsVal) :
    triggerJs st (hookKey h) d = .ok (trigger st (hookKey h) d) := by
  unfold triggerJs hooksGet trigger
  rw [parseHook_hookKey]

/-- A results entry carries the subscription's plugin name. -/
theorem subEntry_plugin (sub : Subscription) (d : JsVal) :
    (subEntry sub d).plugin = sub.name := by
  unfold subEntry
  cases sub.callback d <;> rfl

/-- The trigger loop's results array is the per-subscription entries in
subscription order. -/
theorem runHooks_snd (hn : String) (d : JsVal) (subs : List Subscription) :
    (runHooks hn d subs).2 = subs.map (fun sub => subEntry sub d) := by
  induction subs with
  | nil => rfl
  | cons sub rest ih =>
    unfold runHooks subEntry
    cases hcb : sub.callback d <;> simp [hcb, ih, subEntry]

/-- On a known hook, `trigger`'s results array is the per-subscription
entries of that hook's list, in order. -/
theorem trigger_results (st : PMState) (h : HookName) (d : JsVal) :
    (trigger st (hookKey h) d).2 = (st.hooks h).map (fun sub => subEntry sub d) := by
  unfold trigger
  rw [parseHook_hookKey]
  exact runHooks_snd (hookKey h) d (st.hooks h)

/-- First key wins: updating the stored record under a present key makes
lookup return the new record. -/
theorem find?_setPlugin (l : List (String × PluginRecord)) (name : String)
    (r : PluginRecord) (hp : (l.find? (fun kv => kv.1 = name)).isSome) :
    ((setPlugin l name r).find? (fun kv => kv.1 = name)) = some (name, r) := by
  induction l with
  | nil => simp [List.find?] at hp
  | cons a t ih =>
    by_cases ha : a.1 = name
    · simp [setPlugin, List.find?, ha]
    · rw [List.find?_cons_of_neg _ (by simp [ha])] at hp
      have := ih hp
      simp only [setPlugin, List.map_cons, if_neg ha] at *
      rw [List.find?_cons_of_neg _ (by simp [ha])]
      exact this

/-- Lookup after `setPlugin` of a registered name. -/
theorem lookupPlugin_setPlugin (st : PMState) (name : String)
    (rec r : PluginRecord) (hreg : lookupPlugin st name = some rec) :
    lookupPlugin { st with plugins := setPlugin st.plugins name r } name = some r := by
  unfold lookupPlugin at *
  have hp : (st.plugins.find? (fun kv => kv.1 = name)).isSome := by
    cases hf : st.plugins.find? (fun kv => kv.1 = name) with
    | none => rw [hf] at hreg; simp at hreg
    | some kv => simp [hf]
  simp [find?_setPlugin st.plugins name r hp]

/-- Reading the key just assigned. -/
theorem objGet_objSet_self (o : JsObj) (k : String) (v : JsPrim) :
    objGet (objSet o k v) k = some v := by
  induction o with
  | nil => simp [objSet, objGet, List.find?]
  | cons kv rest ih =>
    by_cases hk : kv.1 = k
    · simp [objSet, hk, objGet, List.find?]
    · simp only [objSet, if_neg hk]
      unfold objGet at *
      rw [List.find?_cons_of_neg _ (by simp [hk])]
      exact ih

/-- Reading another key is unchanged by assignment. -/
theorem objGet_objSet_of_ne (o : JsObj) (k k' : String) (v : JsPrim)
    (hne : k' ≠ k) : objGet (objSet o k v) k' = objGet o k' := by
  induction o with
  | nil => simp [objSet, objGet, List.find?, Ne.symm hne]
  | cons kv rest ih =>
    by_cases hk : kv.1 = k
    · have h1 : objSet (kv :: rest) k v = (k, v) :: rest := by
        unfold objSet; rw [if_pos hk]
      rw [h1]
      unfold objGet
      rw [List.find?_cons_of_neg _ (by simp [Ne.symm hne]),
          List.find?_cons_of_neg _ (by simp [hk, Ne.symm hne])]
    · have h1 : objSet (kv :: rest) k v = kv :: objSet rest k v := by
        simp only [objSet]; rw [if_neg hk]
      rw [h1]
      by_cases hk' : kv.1 = k'
      · unfold objGet
        rw [List.find?_cons_of_pos _ (by simp [hk']),
            List.find?_cons_of_pos _ (by simp [hk'])]
      · unfold objGet at ih ⊢
        rw [List.find?_cons_of_neg _ (by simp [hk']),
            List.find?_cons_of_neg _ (by simp [hk'])]
        exact ih

/-- Validation of a lead is exactly truthiness of `name` and `email`. -/
theorem validateLeadData_iff (body : JsObj) :
    validateLeadData body = true ↔
      (jsTruthy (objGet body "name") = true ∧ jsTruthy (objGet body "email") = true) := by
  simp [validateLeadData]

/-!
## Claims
-/

/-- C1: for a trigger on a hook with N subscriptions where the k-th
subscription's handler throws, the results array has length N in
subscription order, the k-th entry is `{plugin, error}`, and every entry
is that subscription's own outcome (a function of that subscription and
the payload alone, hence unaffected by k).  `trigger` is a total
function, so it never throws. -/
theorem claim_C1_per_plugin_isolation (st : PMState) (h : HookName)
    (d : JsVal) (k : Nat) (m : String) (hk : k < (st.hooks h).length)
    (hthrow : ((st.hooks h)[k]).callback d = .throw m) :
    ((trigger st (hookKey h) d).2).length = (st.hooks h).length ∧
    ((trigger st (hookKey h) d).2)[k]? = some (.failure ((st.hooks h)[k]).name m) ∧
    (∀ j (hj : j < (st.hooks h).length),
      ((trigger st (hookKey h) d).2)[j]? = some (subEntry ((st.hooks h).get ⟨j, hj⟩) d)) := by
  rw [trigger_results]
  refine ⟨by simp, ?_, ?_⟩
  · rw [List.getElem?_map, List.getElem?_eq_getElem hk]
    simp [subEntry, hthrow]
  · intro j hj
    rw [List.getElem?_map, List.getElem?_eq_getElem hj]
    simp [List.get_eq_getElem]

/-- C1 witness: a hook with two subscriptions whose second throws. -/
theorem claim_C1_per_plugin_isolation_witness :
    ((trigger w1St "onLead" dNull).2).length = 2 ∧
    ((trigger w1St "onLead" dNull).2)[1]? = some (.failure "beta" "boom") ∧
    ((trigger w1St "onLead" dNull).2)[0]? = some (.success "alpha" (.prim (.num 1))) := by
  have hk : 1 < (w1St.hooks .onLead).length := by decide
  have hthrow : ((w1St.hooks HookName.onLead)[1]).callback dNull = .throw "boom" := rfl
  obtain ⟨h1, h2, h3⟩ :=
    claim_C1_per_plugin_isolation w1St .onLead dNull 1 "boom" hk hthrow
  refine ⟨?_, h2, ?_⟩
  · show (trigger w1St (hookKey HookName.onLead) dNull).2.length = 2
    rw [h1]; decide
  · exact h3 0 (by decide)

/-- C2 counterexample: at hook name `toString` — outside the fixed
enumeration — the truthy inherited `Object.prototype.toString` bypasses
the `!this.hooks[hookName]` guard and `trigger` throws a `TypeError` from
the `for`-`of` over a non-iterable, instead of reporting the unknown-hook
error and returning an empty result sequence without throwing. -/
theorem claim_C2_counterexample :
    "toString" ∉ ["onBooking", "onLead", "onPayment", "onMessage",
      "onAdTrack", "onTaskCreate", "onVehicleUpdate"] ∧
    triggerJs PMState.initial "toString" dNull
      = .error (typeErrorMsg "toString") ∧
    triggerJs PMState.initial "toString" dNull
      ≠ .ok (["Hook toString does not exist."], []) := by
  refine ⟨by decide, rfl, ?_⟩
  intro hcontra
  rw [show triggerJs PMState.initial "toString" dNull
      = .error (typeErrorMsg "toString") from rfl] at hcontra
  exact Except.noConfusion hcontra

/-- C2 amended: for a hook name outside the fixed enumeration, behavior
splits on the prototype chain.  A name that is not an inherited
`Object.prototype` member resolves to `undefined`: `trigger` reports the
unknown-hook error and returns an empty result sequence, and nothing is
thrown.  A name of an inherited member (`toString`, `constructor`,
`valueOf`, `hasOwnProperty`, ...) is truthy, bypasses the guard, and
`trigger` throws a `TypeError` to the caller. -/
theorem claim_C2_amended_prototype_lookup (st : PMState) (s : String)
    (d : JsVal)
    (hs : s ∉ ["onBooking", "onLead", "onPayment", "onMessage", "onAdTrack",
               "onTaskCreate", "onVehicleUpdate"]) :
    (s ∉ protoKeys →
      triggerJs st s d = .ok (["Hook " ++ s ++ " does not exist."], [])) ∧
    (s ∈ protoKeys → triggerJs st s d = .error (typeErrorMsg s)) := by
  have hp : parseHook s = none := by
    simp only [List.mem_cons, List.not_mem_nil, or_false, not_or] at hs
    obtain ⟨h1, h2, h3, h4, h5, h6, h7⟩ := hs
    simp [parseHook, h1, h2, h3, h4, h5, h6, h7]
  constructor
  · intro hnp
    simp [triggerJs, hooksGet, hp, hnp]
  · intro hip
    simp [triggerJs, hooksGet, hp, hip]

/-- C2 amended witness: `badHook` resolves to `undefined` (error reported,
empty results, no throw) while `valueOf` hits the inherited member and
the `TypeError` propagates. -/
theorem claim_C2_amended_prototype_lookup_witness :
    triggerJs PMState.initial "badHook" dNull
      = .ok (["Hook badHook does not exist."], []) ∧
    triggerJs PMState.initial "valueOf" dNull
      = .error (typeErrorMsg "valueOf") := by
  exact ⟨(claim_C2_amended_prototype_lookup PMState.initial "badHook" dNull
      (by decide)).1 (by decide),
    (claim_C2_amended_prototype_lookup PMState.initial "valueOf" dNull
      (by decide)).2 (by decide)⟩

/-- C3 counterexample: the dispatcher is synchronous and does not await.
A handler returning a promise that rejects yields a `{plugin, result}`
entry holding the unsettled promise object, not the `{plugin, error}`
entry an awaiting dispatcher (`specAwaitedEntry`, per the spec's words)
would record. -/
theorem claim_C3_counterexample :
    (trigger c3St "onLead" dNull).2
      = [.success "asyncP" (.promise (.rejected "boom"))] ∧
    specAwaitedEntry c3Sub dNull = .failure "asyncP" "boom" ∧
    (trigger c3St "onLead" dNull).2 ≠ [specAwaitedEntry c3Sub dNull] := by
  exact ⟨rfl, rfl, by decide⟩

/-- C3 amended: `trigger` collects each handler's *synchronous* outcome in
subscription order; a handler that returns a promise has that promise
object stored, unsettled, as its entry's result — whatever the promise's
eventual settlement, including rejection, which is therefore not captured
as the entry's error. -/
theorem claim_C3_amended_synchronous_dispatch (st : PMState) (h : HookName)
    (d : JsVal) :
    (trigger st (hookKey h) d).2 = (st.hooks h).map (fun sub => subEntry sub d) ∧
    (∀ (sub : Subscription) (p : PromiseSettled),
      sub.callback d = .ret (.promise p) →
      subEntry sub d = .success sub.name (.promise p)) := by
  refine ⟨trigger_results st h d, ?_⟩
  intro sub p hcb
  simp [subEntry, hcb]

/-- C3 amended witness: the rejecting-promise handler's entry is a success
entry holding the promise. -/
theorem claim_C3_amended_witness :
    (trigger c3St "onLead" dNull).2 = [subEntry c3Sub dNull] ∧
    subEntry c3Sub dNull = .success "asyncP" (.promise (.rejected "boom")) := by
  obtain ⟨h1, h2⟩ := claim_C3_amended_synchronous_dispatch c3St .onLead dNull
  exact ⟨h1, h2 c3Sub (.rejected "boom") rfl⟩

/-- After deactivating a registered active plugin, every hook's list has
its subscriptions removed, whatever `cleanup` did. -/
theorem deactivate_state_hooks (st : PMState) (P : String)
    (rec : PluginRecord) (hreg : lookupPlugin st P = some rec)
    (hact : rec.active = true) (h : HookName) :
    (deactivate st P).state.hooks h
      = (st.hooks h).filter (fun sub => sub.name ≠ P) := by
  unfold deactivate
  rw [hreg]
  simp only [hact]
  cases hcl : rec.inst.cleanup with
  | none => simp [hcl]
  | some f =>
    cases hfc : f () with
    | error m => simp [hcl, hfc]
    | ok u => simp [hcl, hfc]

/-- C4: after deactivating an active plugin P, no subscription named P
remains on any hook, and no subsequent trigger on any hook produces an
entry for P. -/
theorem claim_C4_deactivation_removes (st : PMState) (P : String)
    (rec : PluginRecord) (hreg : lookupPlugin st P = some rec)
    (hact : rec.active = true) (h : HookName) (d : JsVal) :
    (∀ sub ∈ (deactivate st P).state.hooks h, sub.name ≠ P) ∧
    (∀ e ∈ (trigger (deactivate st P).state (hookKey h) d).2, e.plugin ≠ P) := by
  have hh := deactivate_state_hooks st P rec hreg hact h
  constructor
  · intro sub hsub
    rw [hh] at hsub
    have := List.of_mem_filter hsub
    simpa using this
  · intro e he
    rw [trigger_results, hh] at he
    obtain ⟨sub, hsub, hes⟩ := List.mem_map.mp he
    have hname := List.of_mem_filter hsub
    rw [← hes, subEntry_plugin]
    simpa using hname

/-- C4 witness: after deactivating `p`, no `onLead` trigger entry carries
plugin name `p`. -/
theorem claim_C4_deactivation_removes_witness :
    "p" ∉ ((trigger (deactivate c4St "p").state "onLead" dNull).2).map
        HookEntry.plugin := by
  intro hmem
  obtain ⟨e, he, hep⟩ := List.mem_map.mp hmem
  exact (claim_C4_deactivation_removes c4St "p"
    ⟨c4Impl, [], true⟩ rfl rfl .onLead dNull).2 e he hep

/-- C6 counterexample: `cleanup` during `deactivate` is NOT guarded — with
an active plugin whose `cleanup` throws, `deactivate` invokes it and the
failure propagates out of `deactivate` instead of being isolated. -/
theorem claim_C6_counterexample :
    (deactivate c6St "p").cleanupCalled = true ∧
    (deactivate c6St "p").ret = .error "cleanup-boom" ∧
    ¬ (deactivate c6St "p").ret = .ok true := by
  refine ⟨rfl, rfl, ?_⟩
  intro hcontra
  rw [show (deactivate c6St "p").ret = .error "cleanup-boom" from rfl] at hcontra
  exact Except.noConfusion hcontra

/-- C6 amended: both lifecycle callbacks are unguarded.  An `init` throw
during `activate` propagates and aborts activation with the state
unchanged (no subscriptions added, plugin not marked active); a `cleanup`
throw during `deactivate` likewise propagates out of `deactivate` — the
subscriptions have already been removed, but the plugin stays marked
active and on the active list. -/
theorem claim_C6_amended_unguarded_callbacks (st : PMState) (name : String)
    (rec : PluginRecord) (m : String) :
    (∀ f, lookupPlugin st name = some rec → rec.inst.init = some f →
      f rec.config = .error m →
      activate st name
        = { state := st, ret := .error m, initCalledWith := some rec.config }) ∧
    (∀ g, lookupPlugin st name = some rec → rec.active = true →
      rec.inst.cleanup = some g → g () = .error m →
      (deactivate st name).ret = .error m ∧
      (deactivate st name).cleanupCalled = true ∧
      (deactivate st name).state.activePlugins = st.activePlugins ∧
      (deactivate st name).state.plugins = st.plugins ∧
      (∀ h, (deactivate st name).state.hooks h
          = (st.hooks h).filter (fun sub => sub.name ≠ name))) := by
  constructor
  · intro f hreg hin hf
    unfold activate
    rw [hreg]
    simp [hin, hf]
  · intro g hreg hact hcl hg
    refine ⟨?_, ?_, ?_, ?_, ?_⟩ <;>
      · unfold deactivate
        rw [hreg]
        simp [hact, hcl, hg]

/-- C6 amended witness: a plugin whose `init` throws aborts its activation
with no state change; a plugin whose `cleanup` throws propagates the
failure while staying on the active list. -/
theorem claim_C6_amended_witness :
    (activate c6InitSt "q").ret = .error "init-boom" ∧
    (activate c6InitSt "q").state.activePlugins = [] ∧
    (deactivate c6St "p").ret = .error "cleanup-boom" ∧
    (deactivate c6St "p").state.activePlugins = ["p"] := by
  have h1 := (claim_C6_amended_unguarded_callbacks c6InitSt "q"
      ⟨c6InitImpl, [], false⟩ "init-boom").1
    (fun _ => .error "init-boom") rfl rfl rfl
  have h2 := (claim_C6_amended_unguarded_callbacks c6St "p"
      ⟨c6CleanImpl, [], true⟩ "cleanup-boom").2
    (fun _ => .error "cleanup-boom") rfl rfl rfl rfl
  refine ⟨by rw [h1], by rw [h1]; rfl, h2.1, ?_⟩
  rw [h2.2.2.1]
  rfl

/-- C7: persistence precedes hooks.  For both entry points on a POST: an
insert error aborts the request with a 500 and no hook is fired; and any
hook that does fire carries exactly a record the persistence collaborator
returned successfully — so a record is persisted before a hook fires for
it. -/
theorem claim_C7_persist_before_hooks (db : JsObj → Except String JsObj)
    (ts : String) (body : JsObj) (now : Nat) (rand : Fin 10000) (e : String) :
    (validateLeadData body = true → db (preparedLead ts body) = .error e →
      onLeadHandler db ts "POST" body
        = { status := 500, insertAttempt := some (preparedLead ts body),
            hooksFired := [] }) ∧
    (∀ hook rec0, (hook, rec0) ∈ (onLeadHandler db ts "POST" body).hooksFired →
      hook = "onLead" ∧ db (preparedLead ts body) = .ok rec0) ∧
    (validateBookingData body = true →
      db (preparedBooking now rand ts body) = .error e →
      onBookingHandler db now rand ts "POST" body
        = { status := 500, insertAttempt := some (preparedBooking now rand ts body),
            hooksFired := [] }) ∧
    (∀ hook rec0,
      (hook, rec0) ∈ (onBookingHandler db now rand ts "POST" body).hooksFired →
      hook = "onBooking" ∧ db (preparedBooking now rand ts body) = .ok rec0) := by
  refine ⟨?_, ?_, ?_, ?_⟩
  · intro hval herr
    simp [onLeadHandler, hval, herr]
  · intro hook rec0 hmem
    cases hval : validateLeadData body with
    | false => simp [onLeadHandler, hval] at hmem
    | true =>
      cases hdb : db (preparedLead ts body) with
      | error e0 => simp [onLeadHandler, hval, hdb] at hmem
      | ok saved =>
        simp [onLeadHandler, hval, hdb] at hmem
        obtain ⟨hh, hr⟩ := hmem
        subst hr
        exact ⟨hh, rfl⟩
  · intro hval herr
    simp [onBookingHandler, hval, herr]
  · intro hook rec0 hmem
    cases hval : validateBookingData body with
    | false => simp [onBookingHandler, hval] at hmem
    | true =>
      cases hdb : db (preparedBooking now rand ts body) with
      | error e0 => simp [onBookingHandler, hval, hdb] at hmem
      | ok saved =>
        simp [onBookingHandler, hval, hdb] at hmem
        obtain ⟨hh, hr⟩ := hmem
        subst hr
        exact ⟨hh, rfl⟩

/-- C7 witness: a failing store yields 500 with no hooks on both entry
points; with a succeeding store, the lead hook's record is the stored
row. -/
theorem claim_C7_persist_before_hooks_witness :
    onLeadHandler dbFail "T" "POST" leadBody
      = { status := 500, insertAttempt := some (preparedLead "T" leadBody),
          hooksFired := [] } ∧
    onBookingHandler dbFail 1760000000000 0 "T" "POST" bookingBody
      = { status := 500,
          insertAttempt := some (preparedBooking 1760000000000 0 "T" bookingBody),
          hooksFired := [] } ∧
    dbOk (preparedLead "T" leadBody)
      = .ok (objSet (preparedLead "T" leadBody) "id" (.num 7)) := by
  refine ⟨?_, ?_, ?_⟩
  · exact (claim_C7_persist_before_hooks dbFail "T" leadBody 0 0 "db down").1
      (by decide) rfl
  · exact (claim_C7_persist_before_hooks dbFail "T" bookingBody
      1760000000000 0 "db down").2.2.1 (by decide) rfl
  · exact ((claim_C7_persist_before_hooks dbOk "T" leadBody 0 0 "unused").2.1
      "onLead" (objSet (preparedLead "T" leadBody) "id" (.num 7))
      (by decide)).2

/-- C8: a POST lead with truthy `name` and `email` (and a successful
insert) returns 200, and the persisted record carries `created_at = ts`
and, when no truthy `source` was supplied, `source = "website"`; a POST
lead missing `name` or `email` returns 400 with no insert attempted and
no hook fired. -/
theorem claim_C8_lead_validation_defaults (db : JsObj → Except String JsObj)
    (ts : String) (body : JsObj) :
    (∀ saved, jsTruthy (objGet body "name") = true →
      jsTruthy (objGet body "email") = true →
      db (preparedLead ts body) = .ok saved →
      onLeadHandler db ts "POST" body
        = { status := 200, insertAttempt := some (preparedLead ts body),
            hooksFired := [("onLead", saved)] } ∧
      objGet (preparedLead ts body) "created_at" = some (.str ts) ∧
      (jsTruthy (objGet body "source") = false →
        objGet (preparedLead ts body) "source" = some (.str "website"))) ∧
    ((jsTruthy (objGet body "name") = false ∨
        jsTruthy (objGet body "email") = false) →
      onLeadHandler db ts "POST" body
        = { status := 400, insertAttempt := none, hooksFired := [] }) := by
  constructor
  · intro saved hname hemail hdb
    have hval : validateLeadData body = true :=
      (validateLeadData_iff body).mpr ⟨hname, hemail⟩
    refine ⟨by simp [onLeadHandler, hval, hdb], ?_, ?_⟩
    · unfold preparedLead
      split
      · exact objGet_objSet_self body "created_at" (.str ts)
      · rw [objGet_objSet_of_ne _ _ _ _ (by decide)]
        exact objGet_objSet_self body "created_at" (.str ts)
    · intro hsrc
      unfold preparedLead
      have hs1 : objGet (objSet body "created_at" (.str ts)) "source"
          = objGet body "source" :=
        objGet_objSet_of_ne body "created_at" "source" (.str ts) (by decide)
      rw [hs1, hsrc, if_neg (by simp)]
      exact objGet_objSet_self _ "source" (.str "website")
  · intro hor
    have hnv : ¬ validateLeadData body = true := by
      intro hv
      obtain ⟨h1, h2⟩ := (validateLeadData_iff body).mp hv
      rcases hor with hn | he
      · rw [hn] at h1; exact Bool.noConfusion h1
      · rw [he] at h2; exact Bool.noConfusion h2
    have hval : validateLeadData body = false := by
      cases hvv : validateLeadData body with
      | true => exact absurd hvv hnv
      | false => rfl
    simp [onLeadHandler, hval]

/-- C8 witness: `{name: "Jane", email: "jane@x.com"}` gives 200 with
`created_at` stamped and `source` defaulted to `website`; `{name: "Jane"}`
gives 400 with nothing persisted and no hook fired. -/
theorem claim_C8_lead_validation_defaults_witness :
    onLeadHandler dbOk "T" "POST" leadBody
      = { status := 200, insertAttempt := some (preparedLead "T" leadBody),
          hooksFired := [("onLead",
            objSet (preparedLead "T" leadBody) "id" (.num 7))] } ∧
    objGet (preparedLead "T" leadBody) "created_at" = some (.str "T") ∧
    objGet (preparedLead "T" leadBody) "source" = some (.str "website") ∧
    onLeadHandler dbOk "T" "POST" badLeadBody
      = { status := 400, insertAttempt := none, hooksFired := [] } := by
  obtain ⟨hA, hB, hC⟩ :=
    (claim_C8_lead_validation_defaults dbOk "T" leadBody).1
      (objSet (preparedLead "T" leadBody) "id" (.num 7))
      (by decide) (by decide) rfl
  exact ⟨hA, hB, hC (by decide),
    (claim_C8_lead_validation_defaults dbOk "T" badLeadBody).2
      (Or.inr (by decide))⟩

/-- C9: `updatePluginConfig` on a registered plugin spread-merges the
partial config into the stored config (new keys override, others are
kept), and invokes the plugin's `updateConfig` callback with the merged
config exactly when the plugin is active and exposes one. -/
theorem claim_C9_shallow_merge_update (st : PMState) (name : String)
    (config : JsObj) (rec : PluginRecord)
    (hreg : lookupPlugin st name = some rec) :
    (updatePluginConfig st name config).ret = true ∧
    lookupPlugin (updatePluginConfig st name config).state name
      = some { rec with config := spreadMerge rec.config config } ∧
    (updatePluginConfig st name config).updateConfigCalledWith
      = (if rec.active ∧ rec.inst.updateConfig.isSome
         then some (spreadMerge rec.config config) else none) := by
  refine ⟨?_, ?_, ?_⟩
  · simp [updatePluginConfig, hreg]
  · have hstate : (updatePluginConfig st name config).state
        = { st with plugins := setPlugin st.plugins name ({ rec with config := spreadMerge rec.config config }) } := by
      unfold updatePluginConfig
      rw [hreg]
    rw [hstate]
    exact lookupPlugin_setPlugin st name rec _ hreg
  · unfold updatePluginConfig
    rw [hreg]

/-- C9 witness: updating `{apiKey: "x"}` over stored `{apiKey: "y",
flowId: "z"}` on the active plugin `wa` stores `{apiKey: "x", flowId:
"z"}` and invokes its `updateConfig` with exactly that merged config. -/
theorem claim_C9_shallow_merge_update_witness :
    (updatePluginConfig c9St "wa" [("apiKey", .str "x")]).ret = true ∧
    lookupPlugin (updatePluginConfig c9St "wa" [("apiKey", .str "x")]).state "wa"
      = some { inst := waImpl,
               config := [("apiKey", .str "x"), ("flowId", .str "z")],
               active := true } ∧
    (updatePluginConfig c9St "wa" [("apiKey", .str "x")]).updateConfigCalledWith
      = some [("apiKey", .str "x"), ("flowId", .str "z")] := by
  obtain ⟨h1, h2, h3⟩ := claim_C9_shallow_merge_update c9St "wa"
    [("apiKey", .str "x")]
    ⟨waImpl, [("apiKey", .str "y"), ("flowId", .str "z")], true⟩ rfl
  exact ⟨h1, by rw [h2]; rfl, by rw [h3]; rfl⟩

